import Mathlib

/-!
Shallow embedding of the `auth_service` repository (Go, gRPC) in Lean 4.

The embedded code comes from `internal/handler/auth.go` (the authoritative
handler), the duplicate handler in the unnamed source file `part_002`, and
the JWT manager `internal/auth/jwt_manager.go`, which is referenced by the
handlers but whose source is not included; its operations are modelled from
the specification (section 4.2).

Go error values are modelled by the inductive `GoError`: each package-level
sentinel (`errors.New` at file scope) is a constructor, inline
`errors.New(msg)` is `errorsNew msg`, and `fmt.Errorf("msg: %w", err)` is
`wrapped "msg" err`.  Errors coming from the external collaborators
(database, bcrypt, signing) carry their detail text, so that "the
caller-visible error does not depend on the internal detail" is a
meaningful statement.
-/

/-- Go error values as returned by the handlers: sentinels from
`internal/handler/auth.go`, inline errors, wrapped errors, and collaborator
errors with their detail text. -/
inductive GoError where
  | errInvalidCredentials                     -- errors.New("invalid username or password")
  | errInvalidToken                           -- errors.New("invalid or expired token")
  | errMissingMetadata                        -- errors.New("missing metadata")
  | errNoAuthToken                            -- errors.New("authorization token not provided")
  | errInvalidTokenClaims                     -- errors.New("invalid token claims")
  | errorsNew (msg : String)                  -- inline errors.New(msg)
  | dbError (detail : String)                 -- errors surfaced by database/sql
  | signError (detail : String)               -- signing failure inside JWTManager.Generate
  | entropyError (detail : String)            -- entropy/resource failure inside bcrypt
  | bcryptError (detail : String)             -- failures of bcrypt.CompareHashAndPassword
  | wrapped (msg : String) (inner : GoError)  -- fmt.Errorf(msg ++ ": %w", inner)
  deriving DecidableEq, Repr

/-- A Go string holding a (claimed) bcrypt hash: either a well-formed bcrypt
encoding `$2a$cost$salt+digest` or any other (malformed) string.  The digest
of the idealized one-way primitive records the hashed password symbolically;
nothing in the development inverts it. -/
inductive HashString where
  | malformed (raw : String)
  | bcrypt (cost : Nat) (salt : Nat) (key : String)
  deriving DecidableEq, Repr

/-- `bcrypt.DefaultCost` from golang.org/x/crypto/bcrypt. -/
def bcryptDefaultCost : Nat := 10

/-- Idealized `bcrypt.GenerateFromPassword` (external collaborator, modelled
from its documented contract in spec section 4.1): salts and digests the
password; fails only when the entropy source fails, which is injected via
`entropyFail`. -/
def bcryptGenerateFromPassword (entropyFail : Option String) (salt : Nat)
    (password : String) : Except GoError HashString :=
  match entropyFail with
  | some d => .error (.entropyError d)
  | none => .ok (.bcrypt bcryptDefaultCost salt password)

/-- Idealized `bcrypt.CompareHashAndPassword`: errors on a malformed hash
string, errors on a digest mismatch, succeeds otherwise. -/
def bcryptCompareHashAndPassword (hashedPassword : HashString)
    (password : String) : Option GoError :=
  match hashedPassword with
  | .malformed _ => some (.bcryptError "hashedSecret too short to be a bcrypted password")
  | .bcrypt _ _ key =>
      if password = key then none
      else some (.bcryptError "hashedPassword is not the hash of the given password")

/-- `hashPassword` from `internal/handler/auth.go` lines 40-46: wraps
`bcrypt.GenerateFromPassword` and decorates its error. -/
def hashPassword (entropyFail : Option String) (salt : Nat)
    (password : String) : Except GoError HashString :=
  match bcryptGenerateFromPassword entropyFail salt password with
  | .error e => .error (.wrapped "failed to hash password" e)
  | .ok hashedPassword => .ok hashedPassword

/-- `checkPassword` from `internal/handler/auth.go` lines 49-54: any error of
the compare primitive is replaced by the sentinel `ErrInvalidCredentials`. -/
def checkPassword (hashedPassword : HashString) (password : String) :
    Option GoError :=
  match bcryptCompareHashAndPassword hashedPassword password with
  | some _ => some .errInvalidCredentials
  | none => none

/-- `checkPassword` from the duplicate handler (`part_002` lines 41-46): the
same structure, but the error is an inline `errors.New("invalid credentials")`
rather than the sentinel. -/
def checkPassword2 (hashedPassword : HashString) (password : String) :
    Option GoError :=
  match bcryptCompareHashAndPassword hashedPassword password with
  | some _ => some (.errorsNew "invalid credentials")
  | none => none

/-- A JSON-style claim value inside a token's claim set (Go: `any` in
`jwt.MapClaims`). -/
inductive ClaimVal where
  | str (s : String)
  | num (n : Nat)
  | null
  deriving DecidableEq, Repr

/-- `jwt.MapClaims`: a string-keyed claim map. -/
def MapClaims := List (String × ClaimVal)

instance : DecidableEq MapClaims := by
  unfold MapClaims
  infer_instance

/-- Go map read `claims[k]`: the value if the key is present. -/
def mapGet (claims : MapClaims) (k : String) : Option ClaimVal :=
  (claims.find? (fun kv => kv.1 = k)).map (fun kv => kv.2)

/-- A signature over a claim set, symbolic-crypto style: verification
succeeds exactly when the recorded key and body match what is checked. -/
structure Signature where
  key : String
  body : MapClaims
  deriving DecidableEq

/-- A Go string presented as a JWT: either it fails structural parse
(`malformed`) or it is the serialization of a claim set with a signature. -/
inductive TokenString where
  | malformed (raw : String)
  | signed (claims : MapClaims) (sig : Signature)
  deriving DecidableEq

/-- The typed failure of `JWTManager.Verify` (spec section 4.2). -/
inductive VerifyErr where
  | tokenInvalid
  | tokenExpired
  deriving DecidableEq, Repr

/-- `*jwt.Token` as the handler consumes it after `Verify`: the claim set
and the `Valid` flag. -/
structure JwtToken where
  claims : MapClaims
  valid : Bool
  deriving DecidableEq

/-- `auth.JWTManager`: a signing secret and a validity duration, loaded at
startup; `signFail` injects the internal signing failure the spec reserves
for `Generate`. -/
structure JWTManager where
  secret : String
  duration : Nat
  signFail : Option String
  deriving DecidableEq

/-- Modelled from the spec: `JWTManager.Generate` of
`internal/auth/jwt_manager.go`, whose source is not included.  Spec 4.2:
builds the claim set with the subject id (keyed `user_id`, the key the
handlers read), `issued_at = now`, `expires_at = now + validity_duration`,
signs and serializes; fails only on signing failure. -/
def jwtGenerate (m : JWTManager) (now : Nat) (userID : String) :
    Except GoError TokenString :=
  match m.signFail with
  | some d => .error (.signError d)
  | none =>
      let claims : MapClaims :=
        [("user_id", .str userID), ("iat", .num now), ("exp", .num (now + m.duration))]
      .ok (.signed claims ⟨m.secret, claims⟩)

/-- Modelled from the spec: `JWTManager.Verify` of
`internal/auth/jwt_manager.go`, whose source is not included.  Spec 4.2:
parses, checks the signature against the secret, checks
`expires_at > now`; structural or signature failure is `TokenInvalid`,
a failed time check on a well-signed token is `TokenExpired`. -/
def jwtVerify (m : JWTManager) (now : Nat) :
    TokenString → Except VerifyErr JwtToken
  | .malformed _ => .error .tokenInvalid
  | .signed claims sig =>
      if sig = ⟨m.secret, claims⟩ then
        match mapGet claims "exp" with
        | some (.num e) => if now < e then .ok ⟨claims, true⟩ else .error .tokenExpired
        | _ => .ok ⟨claims, true⟩
      else .error .tokenInvalid

/-- `validateToken` from `internal/handler/auth.go` lines 84-90: any
`Verify` failure is replaced by the sentinel `ErrInvalidToken`. -/
def validateToken (m : JWTManager) (now : Nat) (tokenString : TokenString) :
    Except GoError JwtToken :=
  match jwtVerify m now tokenString with
  | .error _ => .error .errInvalidToken
  | .ok token => .ok token

/-- gRPC incoming metadata: a multimap from keys to value lists.  Metadata
values that the handler treats as tokens are embedded as `TokenString`. -/
def MD := List (String × List TokenString)

/-- `md[k]` on gRPC metadata: the value list, `[]` when the key is absent. -/
def mdGet (md : MD) (k : String) : List TokenString :=
  match md.find? (fun kv => kv.1 = k) with
  | some kv => kv.2
  | none => []

/-- `extractTokenFromMetadata` from `internal/handler/auth.go` lines 93-106:
no metadata on the context is `ErrMissingMetadata`, an absent or empty
`authorization` value list is `ErrNoAuthToken`, otherwise the first value is
returned as the token (no prefix stripping, no emptiness check). -/
def extractTokenFromMetadata (ctx : Option MD) : Except GoError TokenString :=
  match ctx with
  | none => .error .errMissingMetadata
  | some md =>
      match mdGet md "authorization" with
      | [] => .error .errNoAuthToken
      | t :: _ => .ok t

/-- A row of the `users` table: `id`, `username`, `password` (a bcrypt hash
string). -/
structure UserRow where
  id : String
  username : String
  password : HashString
  deriving DecidableEq

/-- The external SQL store as the handlers see it: the `users` rows, plus an
injected connection-level failure (`fail = some detail`) standing for any
error of database/sql other than an empty result set. -/
structure DB where
  rows : List UserRow
  fail : Option String
  deriving DecidableEq

/-- `QueryRow(SELECT id, password FROM users WHERE username=$1).Scan`:
a connection failure or an empty result set surfaces as an error (the
latter is `sql.ErrNoRows`), otherwise the first matching row is scanned. -/
def dbQueryUser (db : DB) (username : String) :
    Except GoError (String × HashString) :=
  match db.fail with
  | some d => .error (.dbError d)
  | none =>
      match db.rows.find? (fun r => r.username = username) with
      | some r => .ok (r.id, r.password)
      | none => .error (.dbError "sql: no rows in result set")

/-- `QueryRow(SELECT username FROM users WHERE id=$1).Scan`. -/
def dbQueryUsername (db : DB) (id : String) : Except GoError String :=
  match db.fail with
  | some d => .error (.dbError d)
  | none =>
      match db.rows.find? (fun r => r.id = id) with
      | some r => .ok r.username
      | none => .error (.dbError "sql: no rows in result set")

/-- The dependencies injected into `AuthHandler`. -/
structure AuthHandler where
  db : DB
  jwtManager : JWTManager
  deriving DecidableEq

structure LoginRequest where
  username : String
  password : String
  deriving DecidableEq

structure LoginResponse where
  accessToken : TokenString
  deriving DecidableEq

structure GetUserProfileResponse where
  userId : String
  username : String
  deriving DecidableEq

/-- `Login` from `internal/handler/auth.go` lines 57-81, keeping Go's
two-value return `(*pb.LoginResponse, error)` as a pair of options: any
database error becomes the sentinel `ErrInvalidCredentials`, a password
check failure is propagated, a signing failure is wrapped. -/
def Login (h : AuthHandler) (now : Nat) (req : LoginRequest) :
    Option LoginResponse × Option GoError :=
  match dbQueryUser h.db req.username with
  | .error _ => (none, some .errInvalidCredentials)
  | .ok (userID, hashedPassword) =>
      match checkPassword hashedPassword req.password with
      | some e => (none, some e)
      | none =>
          match jwtGenerate h.jwtManager now userID with
          | .error e => (none, some (.wrapped "failed to generate token" e))
          | .ok token => (some ⟨token⟩, none)

/-- `GetUserProfile` from `internal/handler/auth.go` lines 109-139: extract
the token from metadata, validate it, read the `user_id` claim with a
runtime string assertion, and resolve the profile in the store, wrapping
the store's error. -/
def GetUserProfile (h : AuthHandler) (now : Nat) (ctx : Option MD) :
    Option GetUserProfileResponse × Option GoError :=
  match extractTokenFromMetadata ctx with
  | .error e => (none, some e)
  | .ok tokenString =>
      match validateToken h.jwtManager now tokenString with
      | .error e => (none, some e)
      | .ok token =>
          if token.valid then
            match mapGet token.claims "user_id" with
            | some (.str userID) =>
                match dbQueryUsername h.db userID with
                | .error e => (none, some (.wrapped "failed to retrieve user profile" e))
                | .ok username => (some ⟨userID, username⟩, none)
            | _ => (none, some .errInvalidTokenClaims)
          else (none, some .errInvalidTokenClaims)

/-- `Login` from the duplicate handler (`part_002` lines 49-70): same
control flow, but the database error is wrapped into
`fmt.Errorf("invalid username or password: %w", err)` instead of being
replaced by the sentinel, and the password check is `checkPassword2`. -/
def Login2 (h : AuthHandler) (now : Nat) (req : LoginRequest) :
    Option LoginResponse × Option GoError :=
  match dbQueryUser h.db req.username with
  | .error e => (none, some (.wrapped "invalid username or password" e))
  | .ok (userID, hashedPassword) =>
      match checkPassword2 hashedPassword req.password with
      | some e => (none, some e)
      | none =>
          match jwtGenerate h.jwtManager now userID with
          | .error e => (none, some (.wrapped "failed to generate token" e))
          | .ok token => (some ⟨token⟩, none)

/-- Does the claim set carry `user_id` with a string value?  (The condition
of the runtime type assertion `claims["user_id"].(string)`.) -/
def userIdClaimIsStr (claims : MapClaims) : Bool :=
  match mapGet claims "user_id" with
  | some (.str _) => true
  | _ => false

/- Concrete sample values used by witnesses and counterexamples. -/

def sampleManager : JWTManager := ⟨"secret", 100, none⟩

def sampleDB : DB := ⟨[⟨"u1", "alice", .bcrypt 10 7 "correct-pw"⟩], none⟩

def sampleHandler : AuthHandler := ⟨sampleDB, sampleManager⟩

def expiredClaims : MapClaims :=
  [("user_id", .str "u1"), ("iat", .num 0), ("exp", .num 5)]

def expiredToken : TokenString := .signed expiredClaims ⟨"secret", expiredClaims⟩

def goodClaims : MapClaims :=
  [("user_id", .str "u1"), ("iat", .num 0), ("exp", .num 100)]

def goodToken : TokenString := .signed goodClaims ⟨"secret", goodClaims⟩

def noSubClaims : MapClaims := [("iat", .num 0), ("exp", .num 100)]

def noSubToken : TokenString := .signed noSubClaims ⟨"secret", noSubClaims⟩

def garbageToken : TokenString := .malformed "garbage"

def ctxWith (t : TokenString) : Option MD := some [("authorization", [t])]

/-- C4.  `hashPassword` succeeds on every input string, the empty string
included; it fails exactly when the entropy source fails, never because of
the input. -/
theorem C4_hashPassword_total (entropyFail : Option String) (salt : Nat)
    (password : String) :
    (hashPassword entropyFail salt password).isOk ↔ entropyFail = none := by
  cases entropyFail <;>
    simp [hashPassword, bcryptGenerateFromPassword, Except.isOk, Except.toBool]

/-- C3.  A freshly produced hash checks exactly against the password it was
produced from: success iff the candidate equals the original, and on any
other candidate the failure is `ErrInvalidCredentials`. -/
theorem C3_hash_check_roundtrip (salt : Nat) (p q : String) (hp : HashString)
    (hgen : hashPassword none salt p = .ok hp) :
    (checkPassword hp q = none ↔ q = p) ∧
      (q ≠ p → checkPassword hp q = some .errInvalidCredentials) := by
  simp only [hashPassword, bcryptGenerateFromPassword, Except.ok.injEq] at hgen
  subst hgen
  constructor
  · simp [checkPassword, bcryptCompareHashAndPassword]
    by_cases hqp : q = p <;> simp [hqp]
  · intro hne
    simp [checkPassword, bcryptCompareHashAndPassword, hne]

theorem C3_hash_check_roundtrip_witness :
    (checkPassword (HashString.bcrypt 10 7 "pw") "pw" = none ↔ ("pw" : String) = "pw") ∧
      (("other" : String) ≠ "pw" →
        checkPassword (HashString.bcrypt 10 7 "pw") "other" = some .errInvalidCredentials) :=
  ⟨(C3_hash_check_roundtrip 7 "pw" "pw" _ rfl).1,
   (C3_hash_check_roundtrip 7 "pw" "other" _ rfl).2⟩

/-- C5.  `checkPassword` only ever answers success or the single
`ErrInvalidCredentials` value, and on a malformed stored hash it returns
exactly the value a wrong password produces. -/
theorem C5_checkPassword_folded (hp : HashString) (pw : String) :
    (checkPassword hp pw = none ∨ checkPassword hp pw = some .errInvalidCredentials) ∧
      (∀ raw c s k, pw ≠ k →
        checkPassword (HashString.malformed raw) pw = checkPassword (HashString.bcrypt c s k) pw) := by
  constructor
  · cases hp with
    | malformed raw => simp [checkPassword, bcryptCompareHashAndPassword]
    | bcrypt c s k =>
        by_cases hk : pw = k <;> simp [checkPassword, bcryptCompareHashAndPassword, hk]
  · intro raw c s k hk
    simp [checkPassword, bcryptCompareHashAndPassword, hk]

theorem C5_checkPassword_folded_witness :
    checkPassword (HashString.malformed "not-a-hash") "a" =
      checkPassword (HashString.bcrypt 10 0 "b") "a" :=
  (C5_checkPassword_folded (HashString.malformed "not-a-hash") "a").2 "not-a-hash" 10 0 "b"
    (by decide)

/-- C9.  Both handlers return exactly one of a response or an error, never
both and never neither, on every input and store state. -/
theorem C9_no_partial_success (h : AuthHandler) (now : Nat) (req : LoginRequest)
    (ctx : Option MD) :
    (((Login h now req).1 ≠ none ∧ (Login h now req).2 = none) ∨
       ((Login h now req).1 = none ∧ (Login h now req).2 ≠ none)) ∧
      (((GetUserProfile h now ctx).1 ≠ none ∧ (GetUserProfile h now ctx).2 = none) ∨
       ((GetUserProfile h now ctx).1 = none ∧ (GetUserProfile h now ctx).2 ≠ none)) := by
  constructor
  · cases hq : dbQueryUser h.db req.username with
    | error e => simp [Login, hq]
    | ok v =>
        obtain ⟨uid, hp⟩ := v
        cases hc : checkPassword hp req.password with
        | some e => simp [Login, hq, hc]
        | none =>
            cases hg : jwtGenerate h.jwtManager now uid with
            | error e => simp [Login, hq, hc, hg]
            | ok t => simp [Login, hq, hc, hg]
  · cases hx : extractTokenFromMetadata ctx with
    | error e => simp [GetUserProfile, hx]
    | ok ts =>
        cases hv : validateToken h.jwtManager now ts with
        | error e => simp [GetUserProfile, hx, hv]
        | ok token =>
            cases hval : token.valid with
            | false => simp [GetUserProfile, hx, hv, hval]
            | true =>
                cases hm : mapGet token.claims "user_id" with
                | none => simp [GetUserProfile, hx, hv, hval, hm]
                | some cv =>
                    cases cv with
                    | str uid =>
                        cases hd : dbQueryUsername h.db uid with
                        | error e => simp [GetUserProfile, hx, hv, hval, hm, hd]
                        | ok username => simp [GetUserProfile, hx, hv, hval, hm, hd]
                    | num n => simp [GetUserProfile, hx, hv, hval, hm]
                    | null => simp [GetUserProfile, hx, hv, hval, hm]

theorem C9_no_partial_success_witness :
    (((Login sampleHandler 10 ⟨"alice", "correct-pw"⟩).1 ≠ none ∧
        (Login sampleHandler 10 ⟨"alice", "correct-pw"⟩).2 = none) ∨
      ((Login sampleHandler 10 ⟨"alice", "correct-pw"⟩).1 = none ∧
        (Login sampleHandler 10 ⟨"alice", "correct-pw"⟩).2 ≠ none)) ∧
      (((GetUserProfile sampleHandler 10 (ctxWith goodToken)).1 ≠ none ∧
          (GetUserProfile sampleHandler 10 (ctxWith goodToken)).2 = none) ∨
        ((GetUserProfile sampleHandler 10 (ctxWith goodToken)).1 = none ∧
          (GetUserProfile sampleHandler 10 (ctxWith goodToken)).2 ≠ none)) :=
  C9_no_partial_success sampleHandler 10 ⟨"alice", "correct-pw"⟩ (ctxWith goodToken)

/-- C2.  A login for a username absent from the store and a login for a
present username with a non-matching password both return the same
`ErrInvalidCredentials` value: which field failed is not distinguishable. -/
theorem C2_login_indistinguishable (h : AuthHandler) (now : Nat)
    (ghost pw1 u pw2 : String) (row : UserRow) (c s : Nat) (k : String)
    (hnofail : h.db.fail = none)
    (habsent : ∀ r ∈ h.db.rows, r.username ≠ ghost)
    (hfind : h.db.rows.find? (fun r => r.username = u) = some row)
    (hhash : row.password = .bcrypt c s k)
    (hwrong : pw2 ≠ k) :
    Login h now ⟨ghost, pw1⟩ = (none, some .errInvalidCredentials) ∧
      Login h now ⟨u, pw2⟩ = (none, some .errInvalidCredentials) := by
  have hnone : h.db.rows.find? (fun r => r.username = ghost) = none := by
    rw [List.find?_eq_none]
    intro r hr
    simpa using habsent r hr
  constructor
  · simp [Login, dbQueryUser, hnofail, hnone]
  · simp [Login, dbQueryUser, hnofail, hfind, checkPassword,
      bcryptCompareHashAndPassword, hhash, hwrong]

theorem C2_login_indistinguishable_witness :
    Login sampleHandler 0 ⟨"ghost", "anything"⟩ = (none, some .errInvalidCredentials) ∧
      Login sampleHandler 0 ⟨"alice", "wrong-pw"⟩ = (none, some .errInvalidCredentials) :=
  C2_login_indistinguishable sampleHandler 0 "ghost" "anything" "alice" "wrong-pw"
    ⟨"u1", "alice", .bcrypt 10 7 "correct-pw"⟩ 10 7 "correct-pw"
    rfl (by decide) (by decide) rfl (by decide)

/-- C1 counterexample.  At time 10 the expired token and the malformed token
are distinguished by `JWTManager.Verify` (`tokenExpired` vs `tokenInvalid`),
yet `GetUserProfile` returns the one sentinel `ErrInvalidToken` for both:
the `Verify` failure is collapsed, not propagated, and the two failures are
not distinguishable in the returned error value. -/
theorem C1_counterexample :
    jwtVerify sampleManager 10 expiredToken = .error .tokenExpired ∧
      jwtVerify sampleManager 10 garbageToken = .error .tokenInvalid ∧
      (GetUserProfile sampleHandler 10 (ctxWith expiredToken)).2 = some .errInvalidToken ∧
      (GetUserProfile sampleHandler 10 (ctxWith garbageToken)).2 = some .errInvalidToken ∧
      (GetUserProfile sampleHandler 10 (ctxWith expiredToken)).2 =
        (GetUserProfile sampleHandler 10 (ctxWith garbageToken)).2 := by
  refine ⟨rfl, rfl, rfl, rfl, rfl⟩

/-- C1 amended.  Whatever failure `JWTManager.Verify` reports — expired or
invalid alike — `GetUserProfile` returns the single sentinel
`ErrInvalidToken`: the typed verification failure is collapsed by
`validateToken` and is not distinguishable to the caller. -/
theorem C1_verify_failure_collapsed (h : AuthHandler) (now : Nat)
    (ctx : Option MD) (ts : TokenString) (e : VerifyErr)
    (hx : extractTokenFromMetadata ctx = .ok ts)
    (hv : jwtVerify h.jwtManager now ts = .error e) :
    GetUserProfile h now ctx = (none, some .errInvalidToken) := by
  simp [GetUserProfile, validateToken, hx, hv]

theorem C1_verify_failure_collapsed_witness :
    GetUserProfile sampleHandler 10 (ctxWith expiredToken) =
      (none, some .errInvalidToken) :=
  C1_verify_failure_collapsed sampleHandler 10 (ctxWith expiredToken) expiredToken
    .tokenExpired rfl rfl

/-- C6.  A token that verifies but whose claim set lacks a string-typed
`user_id` makes `GetUserProfile` fail with `ErrInvalidTokenClaims`; the
conclusion holds for every store state, so no profile lookup with a default
or empty subject can influence the outcome. -/
theorem C6_strict_claims (h : AuthHandler) (now : Nat) (ctx : Option MD)
    (ts : TokenString) (token : JwtToken)
    (hx : extractTokenFromMetadata ctx = .ok ts)
    (hv : validateToken h.jwtManager now ts = .ok token)
    (hm : userIdClaimIsStr token.claims = false) :
    GetUserProfile h now ctx = (none, some .errInvalidTokenClaims) := by
  simp only [GetUserProfile, hx, hv]
  cases hval : token.valid with
  | false => simp
  | true =>
      simp only [if_pos rfl]
      unfold userIdClaimIsStr at hm
      cases hmg : mapGet token.claims "user_id" with
      | none => simp [hmg]
      | some cv =>
          cases cv with
          | str uid => rw [hmg] at hm; simp at hm
          | num n => simp [hmg]
          | null => simp [hmg]

theorem C6_strict_claims_witness :
    GetUserProfile sampleHandler 10 (ctxWith noSubToken) =
      (none, some .errInvalidTokenClaims) :=
  C6_strict_claims sampleHandler 10 (ctxWith noSubToken) noSubToken
    ⟨noSubClaims, true⟩ rfl rfl rfl

/-- The empty string presented as the `authorization` metadata value. -/
def emptyTokenValue : TokenString := .malformed ""

def emptyTokenCtx : Option MD := some [("authorization", [emptyTokenValue])]

/-- C7 counterexample.  With metadata present and the `authorization` value
the empty string, extraction succeeds and hands the empty value to token
verification: `GetUserProfile` answers `ErrInvalidToken` from verification,
not the no-token failure `ErrNoAuthToken` the claim requires. -/
theorem C7_counterexample :
    extractTokenFromMetadata emptyTokenCtx = .ok emptyTokenValue ∧
      GetUserProfile sampleHandler 10 emptyTokenCtx = (none, some .errInvalidToken) ∧
      (GetUserProfile sampleHandler 10 emptyTokenCtx).2 ≠ some .errNoAuthToken := by
  refine ⟨rfl, rfl, by decide⟩

/-- C7 amended.  No metadata fails with `ErrMissingMetadata`; metadata with
no `authorization` value fails with `ErrNoAuthToken`; but when values are
present the first one — even an empty string — is returned as the token and
passed on to verification rather than rejected as "no token supplied". -/
theorem C7_missing_credentials (h : AuthHandler) (now : Nat) :
    GetUserProfile h now none = (none, some .errMissingMetadata) ∧
      (∀ md : MD, mdGet md "authorization" = [] →
        GetUserProfile h now (some md) = (none, some .errNoAuthToken)) ∧
      (∀ (md : MD) (t : TokenString) (rest : List TokenString),
        mdGet md "authorization" = t :: rest →
        extractTokenFromMetadata (some md) = .ok t) := by
  refine ⟨by simp [GetUserProfile, extractTokenFromMetadata], ?_, ?_⟩
  · intro md hmd
    simp [GetUserProfile, extractTokenFromMetadata, hmd]
  · intro md t rest hmd
    simp [extractTokenFromMetadata, hmd]

theorem C7_missing_credentials_witness :
    GetUserProfile sampleHandler 10 none = (none, some .errMissingMetadata) ∧
      GetUserProfile sampleHandler 10 (some [("other", [])]) =
        (none, some .errNoAuthToken) ∧
      extractTokenFromMetadata emptyTokenCtx = .ok emptyTokenValue :=
  ⟨(C7_missing_credentials sampleHandler 10).1,
   (C7_missing_credentials sampleHandler 10).2.1 [("other", [])] rfl,
   (C7_missing_credentials sampleHandler 10).2.2 [("authorization", [emptyTokenValue])]
     emptyTokenValue [] rfl⟩

/- Handlers that differ only in the detail text of an internal failure. -/

def signFailHandler1 : AuthHandler := ⟨sampleDB, ⟨"secret", 100, some "rsa: key size too small"⟩⟩

def signFailHandler2 : AuthHandler := ⟨sampleDB, ⟨"secret", 100, some "entropy pool exhausted"⟩⟩

def dbFailHandler1 : AuthHandler := ⟨⟨[], some "connection refused"⟩, sampleManager⟩

def dbFailHandler2 : AuthHandler := ⟨⟨[], some "tls handshake timeout"⟩, sampleManager⟩

/-- C8 counterexample.  Two runs that differ only in the internal detail
text produce different caller-visible error values: a signing failure in
`Login` and a profile-lookup failure in `GetUserProfile` are wrapped with
`%w`, so the internal detail reaches the caller. -/
theorem C8_counterexample :
    (Login signFailHandler1 0 ⟨"alice", "correct-pw"⟩).2 =
        some (.wrapped "failed to generate token" (.signError "rsa: key size too small")) ∧
      (Login signFailHandler2 0 ⟨"alice", "correct-pw"⟩).2 =
        some (.wrapped "failed to generate token" (.signError "entropy pool exhausted")) ∧
      (Login signFailHandler1 0 ⟨"alice", "correct-pw"⟩).2 ≠
        (Login signFailHandler2 0 ⟨"alice", "correct-pw"⟩).2 ∧
      (GetUserProfile dbFailHandler1 10 (ctxWith goodToken)).2 =
        some (.wrapped "failed to retrieve user profile" (.dbError "connection refused")) ∧
      (GetUserProfile dbFailHandler1 10 (ctxWith goodToken)).2 ≠
        (GetUserProfile dbFailHandler2 10 (ctxWith goodToken)).2 := by
  refine ⟨rfl, rfl, by decide, rfl, by decide⟩

/-- C8 amended.  Only the database-lookup failure in `Login` is generic: it
is the sentinel `ErrInvalidCredentials` whatever the underlying detail, so
two such runs are indistinguishable; a token-signing failure, by contrast,
is wrapped and surfaces its detail text to the caller. -/
theorem C8_internal_failures (h1 h2 h : AuthHandler) (now1 now2 now : Nat)
    (r1 r2 r : LoginRequest) (d1 d2 d : String) (row : UserRow)
    (hf1 : h1.db.fail = some d1) (hf2 : h2.db.fail = some d2)
    (hok : h.db.fail = none)
    (hfind : h.db.rows.find? (fun x => x.username = r.username) = some row)
    (hpw : checkPassword row.password r.password = none)
    (hsf : h.jwtManager.signFail = some d) :
    (Login h1 now1 r1 = (none, some .errInvalidCredentials) ∧
        Login h1 now1 r1 = Login h2 now2 r2) ∧
      Login h now r = (none, some (.wrapped "failed to generate token" (.signError d))) := by
  refine ⟨⟨?_, ?_⟩, ?_⟩
  · simp [Login, dbQueryUser, hf1]
  · simp [Login, dbQueryUser, hf1, hf2]
  · simp [Login, dbQueryUser, jwtGenerate, hok, hfind, hpw, hsf]

theorem C8_internal_failures_witness :
    (Login dbFailHandler1 0 ⟨"alice", "pw"⟩ = (none, some .errInvalidCredentials) ∧
        Login dbFailHandler1 0 ⟨"alice", "pw"⟩ = Login dbFailHandler2 0 ⟨"bob", "pw"⟩) ∧
      Login signFailHandler1 0 ⟨"alice", "correct-pw"⟩ =
        (none, some (.wrapped "failed to generate token"
          (.signError "rsa: key size too small"))) :=
  C8_internal_failures dbFailHandler1 dbFailHandler2 signFailHandler1 0 0 0
    ⟨"alice", "pw"⟩ ⟨"bob", "pw"⟩ ⟨"alice", "correct-pw"⟩
    "connection refused" "tls handshake timeout" "rsa: key size too small"
    ⟨"u1", "alice", .bcrypt 10 7 "correct-pw"⟩
    rfl rfl rfl rfl rfl rfl

/-- C10 counterexample.  On a present username with a wrong password the two
Login implementations return different error values: the authoritative
handler answers the sentinel `ErrInvalidCredentials` ("invalid username or
password") while the duplicate answers an inline "invalid credentials"
error; so they are not equal on every input. -/
theorem C10_counterexample :
    Login sampleHandler 0 ⟨"alice", "wrong-pw"⟩ =
        (none, some .errInvalidCredentials) ∧
      Login2 sampleHandler 0 ⟨"alice", "wrong-pw"⟩ =
        (none, some (.errorsNew "invalid credentials")) ∧
      Login sampleHandler 0 ⟨"alice", "wrong-pw"⟩ ≠
        Login2 sampleHandler 0 ⟨"alice", "wrong-pw"⟩ := by
  refine ⟨rfl, rfl, by decide⟩

/-- C10 amended.  The two Login implementations agree whenever the store
lookup succeeds and the password matches — the same token on success and
the identically wrapped error on signing failure — but they differ on the
credential-failure paths (lookup error and password mismatch). -/
theorem C10_login_agree_on_success (h : AuthHandler) (now : Nat)
    (req : LoginRequest) (uid : String) (hp : HashString)
    (hq : dbQueryUser h.db req.username = .ok (uid, hp))
    (hc : bcryptCompareHashAndPassword hp req.password = none) :
    Login h now req = Login2 h now req := by
  simp [Login, Login2, checkPassword, checkPassword2, hq, hc]

theorem C10_login_agree_on_success_witness :
    Login sampleHandler 0 ⟨"alice", "correct-pw"⟩ =
      Login2 sampleHandler 0 ⟨"alice", "correct-pw"⟩ :=
  C10_login_agree_on_success sampleHandler 0 ⟨"alice", "correct-pw"⟩
    "u1" (.bcrypt 10 7 "correct-pw") rfl rfl
